import Mathlib

/-!
Shallow embedding of the FormBot repository (src/gform.py): the mapping
compiler `GForm.create_mappings` and the fill engine `GForm.fill`, together
with theorems settling the specification claims about them.

The Form Schema (`rawdata` in the source) is a Python dict of dicts; we model
each category as an insertion-ordered association list, a field meta dict as a
structure of `Option` fields (a `none` component models a missing dict key),
and a raised Python exception (`KeyError`, `AssertionError`) as `Except.error`.
-/

namespace FormBot

/-- Meta dict of one text field: optional keys `types`, `response`, `textarea`. -/
structure TextMeta where
  types : Option (List String)
  response : Option String
  textarea : Option Bool
deriving DecidableEq, Repr

/-- Meta dict of one radio field: optional keys `choice`, `choice_num`. -/
structure RadioMeta where
  choice : Option String
  choice_num : Option Nat
deriving DecidableEq, Repr

/-- Meta dict of one checkbox field: optional key `choices`. -/
structure CheckboxMeta where
  choices : Option (List String)
deriving DecidableEq, Repr

/-- The Form Schema (`rawdata`): categories `text`, `radio`, `checkbox`
(each an insertion-ordered dict keyed by question label) and optional `url`. -/
structure Schema where
  text : List (String × TextMeta)
  radio : List (String × RadioMeta)
  checkbox : List (String × CheckboxMeta)
  url : Option String
deriving DecidableEq, Repr

/-- The compiled Locator Mapping (the `fallbacks` key of the source is always
left empty and carries no information, so it is omitted). -/
structure Mappings where
  text : List (String × String)
  radio : List String
  checkbox : List String
deriving DecidableEq, Repr

/-- Python `sep.join(parts)`. -/
def joinSep (sep : String) : List String → String
  | [] => ""
  | [x] => x
  | x :: xs => x ++ sep ++ joinSep sep xs

/-- The join `' or '.join([f'@type="..."])` of gform.py lines 136-138. -/
def typePredicate (types : List String) : String :=
  joinSep " or " (types.map (fun t => "@type=\"" ++ t ++ "\""))

/-- The ancestor walk shared by the text-field locators (gform.py lines 139, 146). -/
def questionAnchor (question : String) : String :=
  "//span[contains(text(), \"" ++ question ++ "\")]/../../../.."

/-- Primary input locator of a text field (gform.py line 139). -/
def textLocator (question : String) (types : List String) : String :=
  questionAnchor question ++ "//input[" ++ typePredicate types ++ "]"

/-- Textarea locator of a text field (gform.py line 146). -/
def textareaLocator (question : String) : String :=
  questionAnchor question ++ "//textarea"

/-- The union key built at gform.py line 146 when the textarea fallback applies. -/
def combinedLocator (question : String) (types : List String) : String :=
  textLocator question types ++ " | " ++ textareaLocator question

/-- Option locator of a radio or checkbox choice (gform.py lines 151, 157). -/
def choiceLocator (choice : String) : String :=
  "//span[contains(text(), \"" ++ choice ++ "\")]/../../../../..//label"

/-- Python dict assignment `d[k] = v` on an insertion-ordered dict: an existing
key is updated in place, a fresh key is appended at the end. -/
def odInsert (m : List (String × String)) (k v : String) : List (String × String) :=
  if m.any (fun p => p.1 == k) then
    m.map (fun p => if p.1 == k then (k, v) else p)
  else m ++ [(k, v)]

/-- The in-place default `meta['textarea'] = True if exhaustive else False`
applied at gform.py lines 141-142 when the key is absent. -/
def effectiveMeta (exhaustive : Bool) (m : TextMeta) : TextMeta :=
  if m.textarea.isNone then
    { types := m.types, response := m.response, textarea := some exhaustive }
  else m

/-- One iteration of the text-field loop (gform.py lines 133-146): insert the
primary entry when `types` is present (raising `KeyError` when `response` is
missing), default the `textarea` flag, and when the effective flag is true pop
the most recently inserted entry (`popitem`, raising on an empty dict) and
reinsert it with the textarea union key.  Returns the updated text mapping and
the (possibly mutated) field meta. -/
def textStep (exhaustive : Bool) (acc : List (String × String)) (q : String) (m : TextMeta) :
    Except String (List (String × String) × TextMeta) :=
  let step1 : Except String (List (String × String)) :=
    match m.types with
    | some ts =>
      match m.response with
      | some r => Except.ok (odInsert acc (textLocator q ts) r)
      | none => Except.error "KeyError: response"
    | none => Except.ok acc
  match step1 with
  | Except.error e => Except.error e
  | Except.ok acc1 =>
    let m1 := effectiveMeta exhaustive m
    if m1.textarea = some true then
      match acc1.getLast? with
      | none => Except.error "KeyError: popitem(): dictionary is empty"
      | some kv =>
        Except.ok (odInsert acc1.dropLast (kv.1 ++ " | " ++ textareaLocator q) kv.2, m1)
    else Except.ok (acc1, m1)

/-- The text-field loop of `create_mappings`; also returns the mutated metas,
since the source mutates the caller's meta dicts in place. -/
def processText (exhaustive : Bool) :
    List (String × TextMeta) → List (String × String) →
    Except String (List (String × String) × List (String × TextMeta))
  | [], acc => Except.ok (acc, [])
  | (q, m) :: rest, acc =>
    match textStep exhaustive acc q m with
    | Except.error e => Except.error e
    | Except.ok (acc1, m1) =>
      match processText exhaustive rest acc1 with
      | Except.error e => Except.error e
      | Except.ok (accF, restF) => Except.ok (accF, (q, m1) :: restF)

/-- One iteration of the radio loop (gform.py lines 148-152):
`choice = meta['choice']` raises `KeyError` when absent. -/
def radioStep (m : RadioMeta) : Except String String :=
  match m.choice with
  | some c => Except.ok (choiceLocator c)
  | none => Except.error "KeyError: choice"

/-- The radio loop of `create_mappings`. -/
def processRadio : List (String × RadioMeta) → Except String (List String)
  | [] => Except.ok []
  | (_, m) :: rest =>
    match radioStep m with
    | Except.error e => Except.error e
    | Except.ok l =>
      match processRadio rest with
      | Except.error e => Except.error e
      | Except.ok ls => Except.ok (l :: ls)

/-- One iteration of the checkbox loop (gform.py lines 154-158):
`meta['choices']` raises `KeyError` when absent, else one locator per choice. -/
def checkboxStep (m : CheckboxMeta) : Except String (List String) :=
  match m.choices with
  | some cs => Except.ok (cs.map choiceLocator)
  | none => Except.error "KeyError: choices"

/-- The checkbox loop of `create_mappings`. -/
def processCheckbox : List (String × CheckboxMeta) → Except String (List String)
  | [] => Except.ok []
  | (_, m) :: rest =>
    match checkboxStep m with
    | Except.error e => Except.error e
    | Except.ok ls =>
      match processCheckbox rest with
      | Except.error e => Except.error e
      | Except.ok rest1 => Except.ok (ls ++ rest1)

/-- Instance state of a `GForm` object that the claims observe:
`self.mappings` and `self.url`. -/
structure GForm where
  mappings : Mappings
  url : Option String
deriving DecidableEq, Repr

/-- The compiler `GForm.create_mappings` (gform.py lines 66-162).  On success it returns the
updated instance (`self.mappings`, `self.url = rawdata.get('url', None)`), the
mapping it returns to the caller, and the caller's schema as it stands after
the call (the source mutates the text metas in place). -/
def GForm.create_mappings (_g : GForm) (rawdata : Schema) (exhaustive : Bool) :
    Except String (GForm × Mappings × Schema) :=
  match processText exhaustive rawdata.text [] with
  | Except.error e => Except.error e
  | Except.ok (textMap, textMutated) =>
    match processRadio rawdata.radio with
    | Except.error e => Except.error e
    | Except.ok radioList =>
      match processCheckbox rawdata.checkbox with
      | Except.error e => Except.error e
      | Except.ok checkboxList =>
        let m : Mappings :=
          { text := textMap, radio := radioList, checkbox := checkboxList }
        Except.ok ({ mappings := m, url := rawdata.url }, m,
          { rawdata with text := textMutated })

/-!
The fill engine.  External interactions (navigation, element waits, clicks,
operator prompts) are modelled by an `Env` fixing each interaction's outcome,
and the observable actions of a run are recorded as an ordered `Event` trace.
A Python exception escaping `fill` (the URL asserts sit before the
`try` block) is `Except.error ()`; every path through the `try` block ends in
the `finally` clause, whose `return t` yields `Except.ok t`.
-/

/-- Observable actions of one `fill` run, in order. -/
inductive Event where
  | navigate (url : String) (ok : Bool)
  | attemptClear (ok : Bool)
  | attemptText (locator : String) (value : String) (ok : Bool)
  | attemptRadio (locator : String) (ok : Bool)
  | attemptCheckbox (locator : String) (ok : Bool)
  | attemptSubmit (ok : Bool)
  | logFatal
  | logError
  | logWarning
  | quit
deriving DecidableEq, Repr

/-- Outcomes of the external world and the operator during one run. -/
structure Env where
  navigateOk : Bool
  preFillInput : String
  clearOk : Bool
  textOk : String → Bool
  radioOk : String → Bool
  checkboxOk : String → Bool
  reviewInput : String
  submitOk : Bool
  elapsed : Nat

/-- Result of `fill`: `Except.error ()` models an exception escaping to the
caller; `Except.ok t` models a normal return, with `-1` the "not completed"
sentinel.  `trace` records the run's actions in order. -/
structure FillResult where
  result : Except Unit Int
  trace : List Event
deriving Repr

/-- The assignment `self.url = url if url else self.url` (gform.py line 191): the empty
string is falsy in Python. -/
def resolveUrl (g : GForm) (url : Option String) : Option String :=
  match url with
  | some u => if u = "" then g.url else some u
  | none => g.url

/-- The check `re.match(r'^https://.*$', s)`: the string starts with the scheme and the
rest holds no newline, except possibly a single trailing one. -/
def matchesUrlRegex (s : String) : Bool :=
  (s.toList.take 8 == "https://".toList) &&
    (let rest := s.toList.drop 8
     !rest.contains '\n' ||
       (rest.getLast? == some '\n' && !rest.dropLast.contains '\n'))

/-- The text-field loop (gform.py lines 216-228): every entry is attempted in
order; a failed attempt only logs a warning and the loop continues. -/
def textAttemptEvents (env : Env) : List (String × String) → List Event
  | [] => []
  | p :: rest =>
    (if env.textOk p.1 then [Event.attemptText p.1 p.2 true]
      else [Event.attemptText p.1 p.2 false, Event.logWarning])
      ++ textAttemptEvents env rest

/-- The radio loop (gform.py lines 231-241), same skip-on-failure policy. -/
def radioAttemptEvents (env : Env) : List String → List Event
  | [] => []
  | l :: rest =>
    (if env.radioOk l then [Event.attemptRadio l true]
      else [Event.attemptRadio l false, Event.logWarning])
      ++ radioAttemptEvents env rest

/-- The checkbox loop (gform.py lines 244-257), same skip-on-failure policy. -/
def checkboxAttemptEvents (env : Env) : List String → List Event
  | [] => []
  | l :: rest =>
    (if env.checkboxOk l then [Event.attemptCheckbox l true]
      else [Event.attemptCheckbox l false, Event.logWarning])
      ++ checkboxAttemptEvents env rest

/-- The fill engine `GForm.fill` (gform.py lines 164-279).  The two URL asserts precede the
`try` block, so their failures log fatally and escape without the `finally`
cleanup running; everything after `driver.get` is inside the `try`, whose
`finally` quits the driver and returns `t` on every path. -/
def GForm.fill (g : GForm) (env : Env) (url : Option String)
    (submit interactive review_before_submit clear : Bool) : FillResult :=
  match resolveUrl g url with
  | none => ⟨Except.error (), [Event.logFatal]⟩
  | some u =>
    if u = "" then ⟨Except.error (), [Event.logFatal]⟩
    else if !matchesUrlRegex u then ⟨Except.error (), [Event.logFatal]⟩
    else if !env.navigateOk then
      ⟨Except.ok (-1), [Event.navigate u false, Event.logError, Event.quit]⟩
    else if interactive && (env.preFillInput == "q") then
      ⟨Except.ok (-1), [Event.navigate u true, Event.quit]⟩
    else if clear && !env.clearOk then
      ⟨Except.ok (-1),
        [Event.navigate u true, Event.attemptClear false, Event.logError, Event.quit]⟩
    else
      let body := [Event.navigate u true]
        ++ (if clear then [Event.attemptClear true] else [])
        ++ textAttemptEvents env g.mappings.text
        ++ radioAttemptEvents env g.mappings.radio
        ++ checkboxAttemptEvents env g.mappings.checkbox
      let cancel2 := submit && review_before_submit && interactive &&
        (env.reviewInput == "q")
      if submit && !cancel2 then
        if env.submitOk then
          ⟨Except.ok (Int.ofNat env.elapsed), body ++ [Event.attemptSubmit true, Event.quit]⟩
        else
          ⟨Except.ok (-1), body ++ [Event.attemptSubmit false, Event.logError, Event.quit]⟩
      else
        ⟨Except.ok (Int.ofNat env.elapsed), body ++ [Event.quit]⟩

/-! Concrete fixtures shared by several claims. -/

/-- A fresh instance: empty mapping, no URL. -/
def gEmpty : GForm := ⟨⟨[], [], []⟩, none⟩

/-- An environment in which every external interaction succeeds and the
operator always proceeds. -/
def envAllOk : Env :=
  { navigateOk := true, preFillInput := "", clearOk := true,
    textOk := fun _ => true, radioOk := fun _ => true,
    checkboxOk := fun _ => true, reviewInput := "", submitOk := true,
    elapsed := 3 }

/-! Helper lemmas about the locator strings and the ordered-dict model. -/

lemma odInsert_of_not_mem (m : List (String × String)) (k v : String)
    (h : k ∉ m.map Prod.fst) : odInsert m k v = m ++ [(k, v)] := by
  unfold odInsert
  rw [if_neg]
  intro hc
  rcases List.any_eq_true.mp hc with ⟨p, hp, he⟩
  exact h (beq_iff_eq.mp he ▸ List.mem_map.mpr ⟨p, hp, rfl⟩)

lemma getLast?_append_right (l1 l2 : List Char) (c : Char)
    (h : l2.getLast? = some c) : (l1 ++ l2).getLast? = some c := by
  rw [List.getLast?_append_of_ne_nil l1 (by rintro rfl; simp at h)]
  exact h

lemma data_getLast_textLocator (q : String) (ts : List String) :
    (textLocator q ts).data.getLast? = some ']' := by
  have hd : (textLocator q ts).data
      = (questionAnchor q ++ "//input[" ++ typePredicate ts).data ++ "]".data :=
    String.data_append _ _
  rw [hd]
  exact getLast?_append_right _ _ _ rfl

lemma data_getLast_combinedLocator (q : String) (ts : List String) :
    (combinedLocator q ts).data.getLast? = some 'a' := by
  have hd : (combinedLocator q ts).data
      = (textLocator q ts ++ " | ").data
        ++ ((questionAnchor q).data ++ "//textarea".data) := by
    simp [combinedLocator, textareaLocator, String.data_append]
  rw [hd]
  exact getLast?_append_right _ _ _ (getLast?_append_right _ _ _ rfl)

lemma textLocator_ne_combinedLocator (q1 : String) (ts1 : List String)
    (q2 : String) (ts2 : List String) :
    textLocator q1 ts1 ≠ combinedLocator q2 ts2 := by
  intro h
  have h1 := data_getLast_textLocator q1 ts1
  rw [h, data_getLast_combinedLocator q2 ts2] at h1
  cases h1

lemma joinSep_decomp (sep : String) (f : String → String) {t : String} :
    ∀ ts : List String, t ∈ ts → ∃ u v, joinSep sep (ts.map f) = u ++ f t ++ v
  | [], h => absurd h (List.not_mem_nil t)
  | x :: xs, h => by
    rcases List.mem_cons.mp h with rfl | hxs
    · cases xs with
      | nil =>
        exact ⟨"", "", by simp [joinSep, String.empty_append, String.append_empty]⟩
      | cons y ys =>
        refine ⟨"", sep ++ joinSep sep ((y :: ys).map f), ?_⟩
        simp [joinSep, String.append_assoc, String.empty_append]
    · cases xs with
      | nil => cases hxs
      | cons y ys =>
        obtain ⟨u, v, huv⟩ := joinSep_decomp sep f (y :: ys) hxs
        refine ⟨f x ++ sep ++ u, v, ?_⟩
        show joinSep sep (f x :: (y :: ys).map f) = _
        rw [List.map_cons, show joinSep sep (f x :: f y :: ys.map f)
            = f x ++ sep ++ joinSep sep (f y :: ys.map f) from rfl,
          ← List.map_cons, huv]
        simp [String.append_assoc]

/-! Claim theorems. -/

/-- C10: when a text field lacks a `types` key but its effective
textarea-fallback flag is true, `create_mappings` synthesizes no primary entry
for it; the fallback rewrite instead pops the most recently inserted entry of
an earlier text field and gives it a textarea union built from the wrong
field's label; and when no text entry exists yet, compilation raises instead
of returning a mapping. -/
theorem C10_fallback_misapplied :
    (∀ (g : GForm) (q1 : String) (ts : List String) (r q2 : String) (exh : Bool),
      g.create_mappings
        ⟨[(q1, ⟨some ts, some r, some false⟩), (q2, ⟨none, none, some true⟩)],
          [], [], none⟩ exh
        = Except.ok
          (⟨⟨[(textLocator q1 ts ++ " | " ++ textareaLocator q2, r)], [], []⟩, none⟩,
            ⟨[(textLocator q1 ts ++ " | " ++ textareaLocator q2, r)], [], []⟩,
            ⟨[(q1, ⟨some ts, some r, some false⟩), (q2, ⟨none, none, some true⟩)],
              [], [], none⟩))
  ∧ ∀ (g : GForm) (q2 : String) (exh : Bool),
      ∃ msg, g.create_mappings ⟨[(q2, ⟨none, none, some true⟩)], [], [], none⟩ exh
        = Except.error msg :=
  ⟨fun _ _ _ _ _ _ => rfl, fun _ _ _ => ⟨_, rfl⟩⟩

/-- C8: for a text field with more than one input-type hint, the compiled
locator's type predicate is the logical OR across the hints: the locator is
built from the joined predicate, each hint's attribute test appears as a
substring of the locator, and consecutive hints are joined by " or ". -/
theorem C8_type_predicate_or (g : GForm) (q r : String) (ts : List String)
    (h2 : 2 ≤ ts.length) :
    (∀ g' m s',
      g.create_mappings ⟨[(q, ⟨some ts, some r, none⟩)], [], [], none⟩ false
        = Except.ok (g', m, s') → m.text = [(textLocator q ts, r)])
  ∧ (∀ t ∈ ts, ∃ u v, textLocator q ts = u ++ ("@type=\"" ++ t ++ "\"") ++ v)
  ∧ ∃ t1 t2 rest, ts = t1 :: t2 :: rest ∧
      typePredicate ts
        = ("@type=\"" ++ t1 ++ "\"") ++ " or " ++ typePredicate (t2 :: rest) := by
  refine ⟨?_, ?_, ?_⟩
  · intro g' m s' h
    have he : g.create_mappings ⟨[(q, ⟨some ts, some r, none⟩)], [], [], none⟩ false
        = Except.ok (⟨⟨[(textLocator q ts, r)], [], []⟩, none⟩,
            ⟨[(textLocator q ts, r)], [], []⟩,
            ⟨[(q, ⟨some ts, some r, some false⟩)], [], [], none⟩) := rfl
    rw [he] at h
    cases h
    rfl
  · intro t ht
    obtain ⟨u, v, huv⟩ :=
      joinSep_decomp " or " (fun s => "@type=\"" ++ s ++ "\"") ts ht
    refine ⟨questionAnchor q ++ "//input[" ++ u, v ++ "]", ?_⟩
    show questionAnchor q ++ "//input[" ++ typePredicate ts ++ "]" = _
    rw [show typePredicate ts = joinSep " or " (ts.map
        (fun s => "@type=\"" ++ s ++ "\"")) from rfl, huv]
    simp [String.append_assoc]
  · match ts, h2 with
    | t1 :: t2 :: rest, _ => exact ⟨t1, t2, rest, rfl, rfl⟩

/-- Witness for C8 at the hint list of the repository's own example:
types `["text", "email"]`. -/
theorem C8_witness :
    2 ≤ (["text", "email"] : List String).length
  ∧ ((∀ g' m s',
      gEmpty.create_mappings
          ⟨[("Email", ⟨some ["text", "email"], some "resp", none⟩)], [], [], none⟩ false
        = Except.ok (g', m, s') → m.text = [(textLocator "Email" ["text", "email"], "resp")])
  ∧ (∀ t ∈ (["text", "email"] : List String), ∃ u v,
      textLocator "Email" ["text", "email"] = u ++ ("@type=\"" ++ t ++ "\"") ++ v)
  ∧ ∃ t1 t2 rest, (["text", "email"] : List String) = t1 :: t2 :: rest ∧
      typePredicate ["text", "email"]
        = ("@type=\"" ++ t1 ++ "\"") ++ " or " ++ typePredicate (t2 :: rest)) :=
  ⟨by decide, C8_type_predicate_or gEmpty "Email" "resp" ["text", "email"] (by decide)⟩

/-! Error propagation through the three compilation loops. -/

lemma processText_error (e : Bool) :
    ∀ (l : List (String × TextMeta)) (acc : List (String × String)),
      (∃ p ∈ l, p.2.types.isSome ∧ p.2.response = none) →
      ∃ msg, processText e l acc = Except.error msg
  | [], _, h => absurd h (by simp)
  | (q, m) :: rest, acc, h => by
    rcases h with ⟨p, hp, hty, hre⟩
    rcases List.mem_cons.mp hp with rfl | htail
    · obtain ⟨ts, hts⟩ := Option.isSome_iff_exists.mp hty
      refine ⟨"KeyError: response", ?_⟩
      have hts' : m.types = some ts := hts
      have hre' : m.response = none := hre
      simp [processText, textStep, hts', hre']
    · rcases hstep : textStep e acc q m with msg | acc1
      · exact ⟨msg, by simp [processText, hstep]⟩
      · obtain ⟨msg, hmsg⟩ := processText_error e rest acc1.1 ⟨p, htail, hty, hre⟩
        exact ⟨msg, by simp [processText, hstep, hmsg]⟩

lemma processRadio_error :
    ∀ l : List (String × RadioMeta),
      (∃ p ∈ l, p.2.choice = none) →
      ∃ msg, processRadio l = Except.error msg
  | [], h => absurd h (by simp)
  | (q, m) :: rest, h => by
    rcases h with ⟨p, hp, hch⟩
    rcases List.mem_cons.mp hp with rfl | htail
    · have hch' : m.choice = none := hch
      exact ⟨"KeyError: choice", by simp [processRadio, radioStep, hch']⟩
    · rcases hstep : radioStep m with msg | l1
      · exact ⟨msg, by simp [processRadio, hstep]⟩
      · obtain ⟨msg, hmsg⟩ := processRadio_error rest ⟨p, htail, hch⟩
        exact ⟨msg, by simp [processRadio, hstep, hmsg]⟩

lemma processCheckbox_error :
    ∀ l : List (String × CheckboxMeta),
      (∃ p ∈ l, p.2.choices = none) →
      ∃ msg, processCheckbox l = Except.error msg
  | [], h => absurd h (by simp)
  | (q, m) :: rest, h => by
    rcases h with ⟨p, hp, hch⟩
    rcases List.mem_cons.mp hp with rfl | htail
    · have hch' : m.choices = none := hch
      exact ⟨"KeyError: choices", by simp [processCheckbox, checkboxStep, hch']⟩
    · rcases hstep : checkboxStep m with msg | l1
      · exact ⟨msg, by simp [processCheckbox, hstep]⟩
      · obtain ⟨msg, hmsg⟩ := processCheckbox_error rest ⟨p, htail, hch⟩
        exact ⟨msg, by simp [processCheckbox, hstep, hmsg]⟩

/-- C1 counterexample: a schema whose only text field is missing its response
value (and its types list), compiled with the exhaustive switch off, is NOT
rejected — `create_mappings` succeeds and silently omits the field, returning
a Locator Mapping with no text entry at all. -/
theorem C1_counterexample :
    gEmpty.create_mappings ⟨[("Q", ⟨none, none, none⟩)], [], [], none⟩ false
      = Except.ok (gEmpty, ⟨[], [], []⟩,
          ⟨[("Q", ⟨none, none, some false⟩)], [], [], none⟩) := rfl

/-- C1 as amended: a text field that has a `types` key but no response value,
a radio field without a chosen option, or a checkbox field without a choices
set makes `create_mappings` raise, so no Locator Mapping is produced; a text
field missing its `types` key, however, is not covered — with its effective
textarea flag off it is silently omitted instead. -/
theorem C1_missing_key_raises (g : GForm) (s : Schema) (e : Bool)
    (h : (∃ p ∈ s.text, p.2.types.isSome ∧ p.2.response = none)
       ∨ (∃ p ∈ s.radio, p.2.choice = none)
       ∨ (∃ p ∈ s.checkbox, p.2.choices = none)) :
    ∃ msg, g.create_mappings s e = Except.error msg := by
  rcases h with htext | hradio | hcheckbox
  · obtain ⟨msg, hmsg⟩ := processText_error e s.text [] htext
    exact ⟨msg, by simp [GForm.create_mappings, hmsg]⟩
  · rcases hpt : processText e s.text [] with msg | tv
    · exact ⟨msg, by simp [GForm.create_mappings, hpt]⟩
    · obtain ⟨msg, hmsg⟩ := processRadio_error s.radio hradio
      exact ⟨msg, by simp [GForm.create_mappings, hpt, hmsg]⟩
  · rcases hpt : processText e s.text [] with msg | tv
    · exact ⟨msg, by simp [GForm.create_mappings, hpt]⟩
    · rcases hpr : processRadio s.radio with msg | rv
      · exact ⟨msg, by simp [GForm.create_mappings, hpt, hpr]⟩
      · obtain ⟨msg, hmsg⟩ := processCheckbox_error s.checkbox hcheckbox
        exact ⟨msg, by simp [GForm.create_mappings, hpt, hpr, hmsg]⟩

/-- Witness for C1's amended theorem: a text field with a `types` key but no
response value makes compilation fail. -/
theorem C1_witness :
    ((∃ p ∈ ([("Q", (⟨some ["text"], none, none⟩ : TextMeta))]),
        p.2.types.isSome ∧ p.2.response = none)
      ∨ (∃ p ∈ ([] : List (String × RadioMeta)), p.2.choice = none)
      ∨ (∃ p ∈ ([] : List (String × CheckboxMeta)), p.2.choices = none))
  ∧ ∃ msg, gEmpty.create_mappings
      ⟨[("Q", ⟨some ["text"], none, none⟩)], [], [], none⟩ false
      = Except.error msg :=
  ⟨by decide,
    C1_missing_key_raises gEmpty
      ⟨[("Q", ⟨some ["text"], none, none⟩)], [], [], none⟩ false (by decide)⟩

/-! Shape of the mutated schema returned by a successful compilation. -/

lemma textStep_meta (e : Bool) (acc : List (String × String)) (q : String)
    (m : TextMeta) (acc1 : List (String × String)) (m1 : TextMeta)
    (h : textStep e acc q m = Except.ok (acc1, m1)) : m1 = effectiveMeta e m := by
  unfold textStep at h
  rcases hty : m.types with _ | ts <;> simp only [hty] at h
  · split at h
    · split at h
      · simp at h
      · simp only [Except.ok.injEq, Prod.mk.injEq] at h
        exact h.2.symm
    · simp only [Except.ok.injEq, Prod.mk.injEq] at h
      exact h.2.symm
  · rcases hre : m.response with _ | r <;> simp only [hre] at h
    · simp at h
    · split at h
      · split at h
        · simp at h
        · simp only [Except.ok.injEq, Prod.mk.injEq] at h
          exact h.2.symm
      · simp only [Except.ok.injEq, Prod.mk.injEq] at h
        exact h.2.symm

lemma processText_metas (e : Bool) :
    ∀ (l : List (String × TextMeta)) (acc accF : List (String × String))
      (l' : List (String × TextMeta)),
      processText e l acc = Except.ok (accF, l') →
      l' = l.map (fun p => (p.1, effectiveMeta e p.2))
  | [], acc, accF, l', h => by
    simp [processText] at h
    simpa using h.2
  | (q, m) :: rest, acc, accF, l', h => by
    rw [processText] at h
    rcases hstep : textStep e acc q m with msg | am
    · simp only [hstep] at h
      simp at h
    · simp only [hstep] at h
      rcases hrest : processText e rest am.1 with msg | fr
      · simp only [hrest] at h
        simp at h
      · simp only [hrest, Except.ok.injEq, Prod.mk.injEq] at h
        obtain ⟨h1, h2⟩ := h
        subst h2
        rw [List.map_cons]
        exact congrArg₂ List.cons
          (congrArg (Prod.mk q) (textStep_meta e acc q m am.1 am.2 (by rw [hstep])))
          (processText_metas e rest am.1 fr.1 fr.2 (by rw [hrest]))

/-- C4 counterexample: compiling a schema whose text field has no explicit
textarea flag succeeds but hands back a schema in which that field's meta dict
has gained a `textarea` key — the caller-supplied schema was mutated. -/
theorem C4_counterexample :
    (gEmpty.create_mappings
        ⟨[("Q", ⟨some ["text"], some "r", none⟩)], [], [], none⟩ false).toOption.map
        (fun r => r.2.2)
      = some ⟨[("Q", ⟨some ["text"], some "r", some false⟩)], [], [], none⟩
  ∧ (⟨[("Q", ⟨some ["text"], some "r", some false⟩)], [], [], none⟩ : Schema)
      ≠ ⟨[("Q", ⟨some ["text"], some "r", none⟩)], [], [], none⟩ := by
  exact ⟨rfl, by decide⟩

/-- C4 as amended: a successful `create_mappings` call leaves the radio and
checkbox declarations and the url of the caller's schema unchanged, but
mutates every text field declaration that lacks an explicit `textarea` key by
writing the effective flag (the exhaustive switch) into it; fields with an
explicit flag are left as they are. -/
theorem C4_compiler_mutates_schema (g : GForm) (s : Schema) (e : Bool)
    (g' : GForm) (m : Mappings) (s' : Schema)
    (h : g.create_mappings s e = Except.ok (g', m, s')) :
    s'.text = s.text.map (fun p => (p.1, effectiveMeta e p.2))
  ∧ s'.radio = s.radio ∧ s'.checkbox = s.checkbox ∧ s'.url = s.url := by
  unfold GForm.create_mappings at h
  rcases hpt : processText e s.text [] with msg | tv <;> rw [hpt] at h
  · cases h
  · rcases hpr : processRadio s.radio with msg | rv <;> rw [hpr] at h
    · cases h
    · rcases hpc : processCheckbox s.checkbox with msg | cv <;> rw [hpc] at h
      · cases h
      · obtain rfl : s' = { s with text := tv.2 } := by
          cases h
          rfl
        exact ⟨processText_metas e s.text [] tv.1 tv.2 (by rw [hpt]), rfl, rfl, rfl⟩

/-- Witness for C4's amended theorem at a two-field schema, one field with an
explicit textarea flag and one without. -/
theorem C4_witness :
    gEmpty.create_mappings
        ⟨[("A", ⟨some ["t"], some "r", none⟩), ("B", ⟨some ["u"], some "w", some false⟩)],
          [], [], none⟩ true
      = Except.ok
          (⟨⟨[(combinedLocator "A" ["t"], "r"), (textLocator "B" ["u"], "w")], [], []⟩, none⟩,
            ⟨[(combinedLocator "A" ["t"], "r"), (textLocator "B" ["u"], "w")], [], []⟩,
            ⟨[("A", ⟨some ["t"], some "r", some true⟩), ("B", ⟨some ["u"], some "w", some false⟩)],
              [], [], none⟩)
  ∧ ([("A", (⟨some ["t"], some "r", some true⟩ : TextMeta)),
      ("B", ⟨some ["u"], some "w", some false⟩)]
      = [("A", (⟨some ["t"], some "r", none⟩ : TextMeta)),
          ("B", ⟨some ["u"], some "w", some false⟩)].map
          (fun p => (p.1, effectiveMeta true p.2))) := by
  refine ⟨by rfl, ?_⟩
  exact (C4_compiler_mutates_schema gEmpty
    ⟨[("A", ⟨some ["t"], some "r", none⟩), ("B", ⟨some ["u"], some "w", some false⟩)],
      [], [], none⟩ true
    ⟨⟨[(combinedLocator "A" ["t"], "r"), (textLocator "B" ["u"], "w")], [], []⟩, none⟩
    ⟨[(combinedLocator "A" ["t"], "r"), (textLocator "B" ["u"], "w")], [], []⟩
    ⟨[("A", ⟨some ["t"], some "r", some true⟩), ("B", ⟨some ["u"], some "w", some false⟩)],
      [], [], none⟩ (by rfl)).1

/-! Recompiling the (mutated) schema reproduces the same mapping. -/

lemma effectiveMeta_types (e : Bool) (m : TextMeta) :
    (effectiveMeta e m).types = m.types := by
  unfold effectiveMeta
  split <;> rfl

lemma effectiveMeta_response (e : Bool) (m : TextMeta) :
    (effectiveMeta e m).response = m.response := by
  unfold effectiveMeta
  split <;> rfl

lemma effectiveMeta_idem (e : Bool) (m : TextMeta) :
    effectiveMeta e (effectiveMeta e m) = effectiveMeta e m := by
  unfold effectiveMeta
  split
  · simp
  · rfl

lemma textStep_idem (e : Bool) (acc : List (String × String)) (q : String)
    (m : TextMeta) (acc1 : List (String × String)) (m1 : TextMeta)
    (h : textStep e acc q m = Except.ok (acc1, m1)) :
    textStep e acc q m1 = Except.ok (acc1, m1) := by
  have hm := textStep_meta e acc q m acc1 m1 h
  subst hm
  unfold textStep at h ⊢
  simp only [effectiveMeta_types, effectiveMeta_response, effectiveMeta_idem]
  exact h

lemma processText_idem (e : Bool) :
    ∀ (l : List (String × TextMeta)) (acc accF : List (String × String))
      (l' : List (String × TextMeta)),
      processText e l acc = Except.ok (accF, l') →
      processText e l' acc = Except.ok (accF, l')
  | [], acc, accF, l', h => by
    simp [processText] at h
    rcases h with ⟨h1, h2⟩
    subst h1
    subst h2
    rfl
  | (q, m) :: rest, acc, accF, l', h => by
    rw [processText] at h
    rcases hstep : textStep e acc q m with msg | am
    · simp only [hstep] at h
      simp at h
    · simp only [hstep] at h
      rcases hrest : processText e rest am.1 with msg | fr
      · simp only [hrest] at h
        simp at h
      · simp only [hrest, Except.ok.injEq, Prod.mk.injEq] at h
        obtain ⟨h1, h2⟩ := h
        subst h1
        subst h2
        rw [processText]
        have hs2 : textStep e acc q am.2 = Except.ok (am.1, am.2) :=
          textStep_idem e acc q m am.1 am.2 (by rw [hstep])
        have hr2 : processText e fr.2 am.1 = Except.ok (fr.1, fr.2) :=
          processText_idem e rest am.1 fr.1 fr.2 (by rw [hrest])
        simp only [hs2, hr2]

/-- C9: the compiler is deterministic.  First, its output does not depend on
any prior instance state: two arbitrary `GForm` instances compile the same
schema with the same flag to the same result.  Second, recompiling the schema
as it stands after a successful call (the source mutates it in place, so a
second call on the same schema object sees the mutated one) reproduces the
identical Locator Mapping and leaves the schema fixed. -/
theorem C9_deterministic (g1 g2 : GForm) (s : Schema) (e : Bool) :
    g1.create_mappings s e = g2.create_mappings s e
  ∧ ∀ g' m s', g1.create_mappings s e = Except.ok (g', m, s') →
      g'.create_mappings s' e = Except.ok (⟨m, s'.url⟩, m, s') := by
  refine ⟨rfl, ?_⟩
  intro g' m s' h
  unfold GForm.create_mappings at h ⊢
  rcases hpt : processText e s.text [] with msg | tv
  · simp only [hpt] at h
    simp at h
  · simp only [hpt] at h
    rcases hpr : processRadio s.radio with msg | rl
    · simp only [hpr] at h
      simp at h
    · simp only [hpr] at h
      rcases hpc : processCheckbox s.checkbox with msg | cl
      · simp only [hpc] at h
        simp at h
      · simp only [hpc, Except.ok.injEq, Prod.mk.injEq] at h
        obtain ⟨rfl, rfl, rfl⟩ := h
        have h2 := processText_idem e s.text [] tv.1 tv.2 (by rw [hpt])
        simp only [h2, hpr, hpc]

/-- Witness for C9: two different instances compile the example schema
identically, and recompiling the mutated schema returns the same mapping. -/
theorem C9_witness :
    gEmpty.create_mappings
        ⟨[("A", ⟨some ["t"], some "r", none⟩)], [("R", ⟨some "c", none⟩)],
          [("C", ⟨some ["x", "y"]⟩)], some "https://u"⟩ false
      = (⟨⟨[("k", "v")], ["z"], ["w"]⟩, some "https://other"⟩ : GForm).create_mappings
        ⟨[("A", ⟨some ["t"], some "r", none⟩)], [("R", ⟨some "c", none⟩)],
          [("C", ⟨some ["x", "y"]⟩)], some "https://u"⟩ false
  ∧ (⟨⟨[(textLocator "A" ["t"], "r")], [choiceLocator "c"],
        [choiceLocator "x", choiceLocator "y"]⟩, some "https://u"⟩ : GForm).create_mappings
      ⟨[("A", ⟨some ["t"], some "r", some false⟩)], [("R", ⟨some "c", none⟩)],
        [("C", ⟨some ["x", "y"]⟩)], some "https://u"⟩ false
      = Except.ok
          (⟨⟨[(textLocator "A" ["t"], "r")], [choiceLocator "c"],
              [choiceLocator "x", choiceLocator "y"]⟩, some "https://u"⟩,
            ⟨[(textLocator "A" ["t"], "r")], [choiceLocator "c"],
              [choiceLocator "x", choiceLocator "y"]⟩,
            ⟨[("A", ⟨some ["t"], some "r", some false⟩)], [("R", ⟨some "c", none⟩)],
              [("C", ⟨some ["x", "y"]⟩)], some "https://u"⟩) :=
  ⟨(C9_deterministic gEmpty ⟨⟨[("k", "v")], ["z"], ["w"]⟩, some "https://other"⟩
      ⟨[("A", ⟨some ["t"], some "r", none⟩)], [("R", ⟨some "c", none⟩)],
        [("C", ⟨some ["x", "y"]⟩)], some "https://u"⟩ false).1,
    (C9_deterministic gEmpty gEmpty
      ⟨[("A", ⟨some ["t"], some "r", none⟩)], [("R", ⟨some "c", none⟩)],
        [("C", ⟨some ["x", "y"]⟩)], some "https://u"⟩ false).2
      ⟨⟨[(textLocator "A" ["t"], "r")], [choiceLocator "c"],
          [choiceLocator "x", choiceLocator "y"]⟩, some "https://u"⟩
      ⟨[(textLocator "A" ["t"], "r")], [choiceLocator "c"],
        [choiceLocator "x", choiceLocator "y"]⟩
      ⟨[("A", ⟨some ["t"], some "r", some false⟩)], [("R", ⟨some "c", none⟩)],
        [("C", ⟨some ["x", "y"]⟩)], some "https://u"⟩ (by rfl)⟩

/-! The exhaustive-switch invariant: with every text field well formed, the
text mapping accumulates exactly one combined entry per field. -/

set_option maxHeartbeats 1000000 in
lemma processText_exhaustive :
    ∀ (l : List (String × TextMeta)) (acc : List (String × String)),
      (∀ p ∈ l, p.2.textarea = none ∧ p.2.types.isSome ∧ p.2.response.isSome) →
      (l.map (fun p => combinedLocator p.1 (p.2.types.getD []))).Nodup →
      (∀ p ∈ l, combinedLocator p.1 (p.2.types.getD []) ∉ acc.map Prod.fst) →
      (∀ k ∈ acc.map Prod.fst, ∃ q2 ts2, k = combinedLocator q2 ts2) →
      processText true l acc = Except.ok
        (acc ++ l.map (fun p =>
            (combinedLocator p.1 (p.2.types.getD []), p.2.response.getD "")),
          l.map (fun p => (p.1, ⟨p.2.types, p.2.response, some true⟩)))
  | [], acc, _, _, _, _ => by simp [processText]
  | (q, m) :: rest, acc, hwf, hnodup, hfresh, hallcomb => by
    obtain ⟨hta, hty, hre⟩ := hwf (q, m) (List.mem_cons_self _ _)
    obtain ⟨ts, hts⟩ := Option.isSome_iff_exists.mp hty
    obtain ⟨r, hre'⟩ := Option.isSome_iff_exists.mp hre
    have hta' : m.textarea = none := hta
    have hts' : m.types = some ts := hts
    have hre'' : m.response = some r := hre'
    have hprimfresh : textLocator q ts ∉ acc.map Prod.fst := by
      intro hmem
      obtain ⟨q2, ts2, hk⟩ := hallcomb _ hmem
      exact textLocator_ne_combinedLocator q ts q2 ts2 hk
    have hcombfresh : combinedLocator q ts ∉ acc.map Prod.fst := by
      have := hfresh (q, m) (List.mem_cons_self _ _)
      simpa [hts'] using this
    have hmeta : effectiveMeta true m = ⟨m.types, m.response, some true⟩ := by
      unfold effectiveMeta
      rw [if_pos (by simp [hta'])]
    have hoc : odInsert acc (textLocator q ts ++ " | " ++ textareaLocator q) r
        = acc ++ [(textLocator q ts ++ " | " ++ textareaLocator q, r)] :=
      odInsert_of_not_mem acc _ r hcombfresh
    have hstep : textStep true acc q m
        = Except.ok (acc ++ [(combinedLocator q ts, r)],
            ⟨m.types, m.response, some true⟩) := by
      unfold textStep
      simp only [hts', hre'']
      rw [odInsert_of_not_mem acc (textLocator q ts) r hprimfresh, hmeta]
      rw [if_pos (show (⟨m.types, m.response, some true⟩ : TextMeta).textarea
          = some true from rfl)]
      simp only [List.getLast?_concat, List.dropLast_concat]
      rw [hoc, hts', hre'']
      rfl
    have hrec := processText_exhaustive rest (acc ++ [(combinedLocator q ts, r)])
      (fun p hp => hwf p (List.mem_cons_of_mem _ hp))
      (by
        have := hnodup
        rw [List.map_cons] at this
        exact this.of_cons)
      (by
        intro p hp
        rw [List.map_append, List.mem_append]
        rintro (hin | hin)
        · exact hfresh p (List.mem_cons_of_mem _ hp) hin
        · have hcq : combinedLocator p.1 (p.2.types.getD []) = combinedLocator q ts := by
            simpa using hin
          have hnd := hnodup
          rw [List.map_cons, List.nodup_cons] at hnd
          simp only [hts', Option.getD_some] at hnd
          have hmem2 : combinedLocator p.1 (p.2.types.getD [])
              ∈ rest.map (fun p => combinedLocator p.1 (p.2.types.getD [])) :=
            List.mem_map_of_mem _ hp
          rw [hcq] at hmem2
          exact hnd.1 hmem2)
      (by
        intro k hk
        rw [List.map_append, List.mem_append] at hk
        rcases hk with hin | hin
        · exact hallcomb k hin
        · exact ⟨q, ts, by simpa using hin⟩)
    rw [processText]
    simp only [hstep, hrec]
    simp [hts', hre'', List.append_assoc]

/-- C6: with the exhaustive switch on, a schema all of whose text fields are
well formed (type hints and response present, no explicit textarea override)
and whose synthesized union keys are pairwise distinct compiles so that each
field's entry, in its original position, carries the union of the input-type
locator and the textarea locator for the same label, with the expected value
unchanged. -/
theorem C6_exhaustive_union (g g' : GForm) (s s' : Schema) (m : Mappings)
    (hwf : ∀ p ∈ s.text, p.2.textarea = none ∧ p.2.types.isSome ∧ p.2.response.isSome)
    (hnodup : (s.text.map (fun p => combinedLocator p.1 (p.2.types.getD []))).Nodup)
    (hok : g.create_mappings s true = Except.ok (g', m, s')) :
    m.text = s.text.map (fun p =>
      (combinedLocator p.1 (p.2.types.getD []), p.2.response.getD "")) := by
  have hpt := processText_exhaustive s.text [] hwf hnodup (by simp) (by simp)
  unfold GForm.create_mappings at hok
  simp only [hpt] at hok
  rcases hpr : processRadio s.radio with msg | rl
  · rw [hpr] at hok
    simp at hok
  · rw [hpr] at hok
    rcases hpc : processCheckbox s.checkbox with msg | cl
    · rw [hpc] at hok
      simp at hok
    · rw [hpc] at hok
      simp only [Except.ok.injEq, Prod.mk.injEq] at hok
      obtain ⟨h1, h2, h3⟩ := hok
      rw [← h2]
      simp

/-- Witness for C6 at a concrete two-field schema with the exhaustive switch
on. -/
theorem C6_witness :
    (∀ p ∈ [("A", (⟨some ["t"], some "r1", none⟩ : TextMeta)),
            ("B", ⟨some ["u"], some "r2", none⟩)],
        p.2.textarea = none ∧ p.2.types.isSome ∧ p.2.response.isSome)
  ∧ ([("A", (⟨some ["t"], some "r1", none⟩ : TextMeta)),
      ("B", ⟨some ["u"], some "r2", none⟩)].map
        (fun p => combinedLocator p.1 (p.2.types.getD []))).Nodup
  ∧ (⟨[(combinedLocator "A" ["t"], "r1"), (combinedLocator "B" ["u"], "r2")],
      [], []⟩ : Mappings).text
      = [("A", (⟨some ["t"], some "r1", none⟩ : TextMeta)),
          ("B", ⟨some ["u"], some "r2", none⟩)].map
          (fun p => (combinedLocator p.1 (p.2.types.getD []), p.2.response.getD "")) := by
  refine ⟨by decide, by decide, ?_⟩
  exact C6_exhaustive_union gEmpty
    ⟨⟨[(combinedLocator "A" ["t"], "r1"), (combinedLocator "B" ["u"], "r2")], [], []⟩, none⟩
    ⟨[("A", ⟨some ["t"], some "r1", none⟩), ("B", ⟨some ["u"], some "r2", none⟩)],
      [], [], none⟩
    ⟨[("A", ⟨some ["t"], some "r1", some true⟩), ("B", ⟨some ["u"], some "r2", some true⟩)],
      [], [], none⟩
    ⟨[(combinedLocator "A" ["t"], "r1"), (combinedLocator "B" ["u"], "r2")], [], []⟩
    (by decide) (by decide) (by rfl)

/-! Classifiers and counting lemmas over run traces. -/

/-- True exactly on text-field attempt events. -/
def Event.isTextAttempt : Event → Bool
  | Event.attemptText _ _ _ => true
  | _ => false

/-- True exactly on radio attempt events. -/
def Event.isRadioAttempt : Event → Bool
  | Event.attemptRadio _ _ => true
  | _ => false

/-- True exactly on checkbox attempt events. -/
def Event.isCheckboxAttempt : Event → Bool
  | Event.attemptCheckbox _ _ => true
  | _ => false

lemma count_quit_textAttemptEvents (env : Env) (l : List (String × String)) :
    (textAttemptEvents env l).count Event.quit = 0 := by
  induction l with
  | nil => rfl
  | cons p rest ih =>
    rw [textAttemptEvents]
    by_cases h : env.textOk p.1 <;>
      simp [h, List.count_append, ih, List.count_cons]

lemma count_quit_radioAttemptEvents (env : Env) (l : List String) :
    (radioAttemptEvents env l).count Event.quit = 0 := by
  induction l with
  | nil => rfl
  | cons x rest ih =>
    rw [radioAttemptEvents]
    by_cases h : env.radioOk x <;>
      simp [h, List.count_append, ih, List.count_cons]

lemma count_quit_checkboxAttemptEvents (env : Env) (l : List String) :
    (checkboxAttemptEvents env l).count Event.quit = 0 := by
  induction l with
  | nil => rfl
  | cons x rest ih =>
    rw [checkboxAttemptEvents]
    by_cases h : env.checkboxOk x <;>
      simp [h, List.count_append, ih, List.count_cons]

lemma filter_text_of_textAttemptEvents (env : Env) (l : List (String × String)) :
    (textAttemptEvents env l).filter Event.isTextAttempt
      = l.map (fun p => Event.attemptText p.1 p.2 (env.textOk p.1)) := by
  induction l with
  | nil => rfl
  | cons p rest ih =>
    rw [textAttemptEvents]
    by_cases h : env.textOk p.1 <;>
      simp [h, List.filter_append, ih, Event.isTextAttempt]

lemma filter_text_of_radioAttemptEvents (env : Env) (l : List String) :
    (radioAttemptEvents env l).filter Event.isTextAttempt = [] := by
  induction l with
  | nil => rfl
  | cons x rest ih =>
    rw [radioAttemptEvents]
    by_cases h : env.radioOk x <;>
      simp [h, List.filter_append, ih, Event.isTextAttempt]

lemma filter_text_of_checkboxAttemptEvents (env : Env) (l : List String) :
    (checkboxAttemptEvents env l).filter Event.isTextAttempt = [] := by
  induction l with
  | nil => rfl
  | cons x rest ih =>
    rw [checkboxAttemptEvents]
    by_cases h : env.checkboxOk x <;>
      simp [h, List.filter_append, ih, Event.isTextAttempt]

lemma filter_radio_of_textAttemptEvents (env : Env) (l : List (String × String)) :
    (textAttemptEvents env l).filter Event.isRadioAttempt = [] := by
  induction l with
  | nil => rfl
  | cons p rest ih =>
    rw [textAttemptEvents]
    by_cases h : env.textOk p.1 <;>
      simp [h, List.filter_append, ih, Event.isRadioAttempt]

lemma filter_radio_of_radioAttemptEvents (env : Env) (l : List String) :
    (radioAttemptEvents env l).filter Event.isRadioAttempt
      = l.map (fun x => Event.attemptRadio x (env.radioOk x)) := by
  induction l with
  | nil => rfl
  | cons x rest ih =>
    rw [radioAttemptEvents]
    by_cases h : env.radioOk x <;>
      simp [h, List.filter_append, ih, Event.isRadioAttempt]

lemma filter_radio_of_checkboxAttemptEvents (env : Env) (l : List String) :
    (checkboxAttemptEvents env l).filter Event.isRadioAttempt = [] := by
  induction l with
  | nil => rfl
  | cons x rest ih =>
    rw [checkboxAttemptEvents]
    by_cases h : env.checkboxOk x <;>
      simp [h, List.filter_append, ih, Event.isRadioAttempt]

lemma filter_checkbox_of_textAttemptEvents (env : Env) (l : List (String × String)) :
    (textAttemptEvents env l).filter Event.isCheckboxAttempt = [] := by
  induction l with
  | nil => rfl
  | cons p rest ih =>
    rw [textAttemptEvents]
    by_cases h : env.textOk p.1 <;>
      simp [h, List.filter_append, ih, Event.isCheckboxAttempt]

lemma filter_checkbox_of_radioAttemptEvents (env : Env) (l : List String) :
    (radioAttemptEvents env l).filter Event.isCheckboxAttempt = [] := by
  induction l with
  | nil => rfl
  | cons x rest ih =>
    rw [radioAttemptEvents]
    by_cases h : env.radioOk x <;>
      simp [h, List.filter_append, ih, Event.isCheckboxAttempt]

lemma filter_checkbox_of_checkboxAttemptEvents (env : Env) (l : List String) :
    (checkboxAttemptEvents env l).filter Event.isCheckboxAttempt
      = l.map (fun x => Event.attemptCheckbox x (env.checkboxOk x)) := by
  induction l with
  | nil => rfl
  | cons x rest ih =>
    rw [checkboxAttemptEvents]
    by_cases h : env.checkboxOk x <;>
      simp [h, List.filter_append, ih, Event.isCheckboxAttempt]

lemma count_quit_clearEvents (c : Bool) :
    ((if c = true then [Event.attemptClear true] else []).count Event.quit) = 0 := by
  cases c <;> rfl

lemma exists_pre_quit (l1 l2 : List Event) (h : ∃ p, l2 = p ++ [Event.quit]) :
    ∃ pre, l1 ++ l2 = pre ++ [Event.quit] := by
  obtain ⟨p, rfl⟩ := h
  exact ⟨l1 ++ p, by simp⟩

/-- C2 counterexample: calling `fill` with no URL at all (none passed, none
stored) does NOT return the "not completed" sentinel — the assertion error
escapes to the caller (the run crashes), only a fatal log is emitted, and the
session is never terminated. -/
theorem C2_counterexample :
    gEmpty.fill envAllOk none true false false false
      = ⟨Except.error (), [Event.logFatal]⟩ := rfl

/-- C2 as amended: when the target URL is absent, empty, or not
https-formed, `fill` logs fatally and the assertion error propagates to the
caller as a crash — no sentinel is returned and the session is not released;
only when the URL passes both asserts and navigation itself fails is the
error caught at the outermost boundary, logged, and converted into the
"not completed" sentinel with the session terminated. -/
theorem C2_url_and_navigation (g : GForm) (env : Env) (url : Option String)
    (submit interactive review clear : Bool) :
    (resolveUrl g url = none →
      g.fill env url submit interactive review clear
        = ⟨Except.error (), [Event.logFatal]⟩)
  ∧ (∀ u, resolveUrl g url = some u → (u = "" ∨ matchesUrlRegex u = false) →
      g.fill env url submit interactive review clear
        = ⟨Except.error (), [Event.logFatal]⟩)
  ∧ (∀ u, resolveUrl g url = some u → u ≠ "" → matchesUrlRegex u = true →
      env.navigateOk = false →
      g.fill env url submit interactive review clear
        = ⟨Except.ok (-1), [Event.navigate u false, Event.logError, Event.quit]⟩) := by
  refine ⟨?_, ?_, ?_⟩
  · intro h
    unfold GForm.fill
    rw [h]
  · intro u hres hbad
    unfold GForm.fill
    rw [hres]
    rcases hbad with rfl | hbad
    · simp
    · by_cases he : u = ""
      · simp [he]
      · simp [he, hbad]
  · intro u hres hne hurl hnav
    unfold GForm.fill
    rw [hres]
    simp [hne, hurl, hnav]

/-- Witness for C2's amended theorem: an http URL crashes the call, and a
failed navigation on a valid URL yields the sentinel with the session
released. -/
theorem C2_witness :
    gEmpty.fill envAllOk (some "http://plain.example") true false false false
      = ⟨Except.error (), [Event.logFatal]⟩
  ∧ (⟨⟨[], [], []⟩, some "https://ok.example"⟩ : GForm).fill
      { envAllOk with navigateOk := false } none true false false false
      = ⟨Except.ok (-1),
          [Event.navigate "https://ok.example" false, Event.logError, Event.quit]⟩ :=
  ⟨(C2_url_and_navigation gEmpty envAllOk (some "http://plain.example")
      true false false false).2.1 "http://plain.example" (by rfl) (Or.inr (by rfl)),
    (C2_url_and_navigation ⟨⟨[], [], []⟩, some "https://ok.example"⟩
      { envAllOk with navigateOk := false } none true false false false).2.2
      "https://ok.example" (by rfl) (by decide) (by rfl) (by rfl)⟩

/-- C3 counterexample: on the invalid-URL exit path the session is never
terminated — the trace holds no quit action and the exception escapes — so
termination does not happen on every exit path. -/
theorem C3_counterexample :
    (gEmpty.fill envAllOk (some "http://insecure.example") true false false
        false).trace.count Event.quit = 0
  ∧ (gEmpty.fill envAllOk (some "http://insecure.example") true false false
        false).result = Except.error () := ⟨rfl, rfl⟩

/-- C3 as amended: on every exit path that passes the URL validation —
normal completion, operator cancellation at either checkpoint, or any caught
error — the session is terminated exactly once, as the final action before
`fill` returns; but when URL validation fails, `fill` raises before the
try block and the session is not terminated at all. -/
theorem C3_quit_exactly_once (g : GForm) (env : Env) (url : Option String)
    (submit interactive review clear : Bool) (u : String)
    (hres : resolveUrl g url = some u) (hne : u ≠ "")
    (hurl : matchesUrlRegex u = true) :
    ((g.fill env url submit interactive review clear).trace.count Event.quit = 1)
  ∧ ∃ pre, (g.fill env url submit interactive review clear).trace
      = pre ++ [Event.quit] := by
  unfold GForm.fill
  rw [hres]
  simp only [if_neg hne, hurl, Bool.not_true, Bool.false_eq_true, if_false]
  constructor
  · split
    · simp [List.count_cons]
    · split
      · simp [List.count_cons]
      · split
        · simp [List.count_cons]
        · split
          · split <;>
              simp [List.count_append, List.count_cons,
                count_quit_textAttemptEvents, count_quit_radioAttemptEvents,
                count_quit_checkboxAttemptEvents, count_quit_clearEvents]
          · simp [List.count_append, List.count_cons,
              count_quit_textAttemptEvents, count_quit_radioAttemptEvents,
              count_quit_checkboxAttemptEvents, count_quit_clearEvents]
  · split
    · exact ⟨[Event.navigate u false, Event.logError], rfl⟩
    · split
      · exact ⟨[Event.navigate u true], rfl⟩
      · split
        · exact ⟨[Event.navigate u true, Event.attemptClear false, Event.logError], rfl⟩
        · split
          · split
            · exact exists_pre_quit _ _ ⟨[Event.attemptSubmit true], rfl⟩
            · exact exists_pre_quit _ _
                ⟨[Event.attemptSubmit false, Event.logError], rfl⟩
          · exact exists_pre_quit _ _ ⟨[], rfl⟩

/-- Witness for C3's amended theorem: a full successful run terminates the
session exactly once, with quit as the final action. -/
theorem C3_witness :
    ((⟨⟨[("L", "v")], ["R"], ["K"]⟩, none⟩ : GForm).fill envAllOk
        (some "https://ok.example") true false false false).trace.count Event.quit = 1
  ∧ ∃ pre, ((⟨⟨[("L", "v")], ["R"], ["K"]⟩, none⟩ : GForm).fill envAllOk
        (some "https://ok.example") true false false false).trace
      = pre ++ [Event.quit] :=
  C3_quit_exactly_once ⟨⟨[("L", "v")], ["R"], ["K"]⟩, none⟩ envAllOk
    (some "https://ok.example") true false false false "https://ok.example"
    (by rfl) (by decide) (by rfl)

/-- C7: in interactive mode, cancelling at the pre-fill checkpoint makes
`fill` return the "not completed" sentinel, and the run's only actions are the
navigation and the session termination — no field-fill and no submit action is
performed. -/
theorem C7_prefill_cancel (g : GForm) (env : Env) (u : String)
    (submit review clear : Bool)
    (hne : u ≠ "") (hurl : matchesUrlRegex u = true)
    (hnav : env.navigateOk = true) (hq : env.preFillInput = "q") :
    g.fill env (some u) submit true review clear
      = ⟨Except.ok (-1), [Event.navigate u true, Event.quit]⟩ := by
  unfold GForm.fill resolveUrl
  simp [hne, hurl, hnav, hq]

/-- Witness for C7 at a concrete form and an operator who answers q. -/
theorem C7_witness :
    (⟨⟨[("L", "v")], ["R"], ["K"]⟩, none⟩ : GForm).fill
        { envAllOk with preFillInput := "q" } (some "https://ok.example")
        true true true false
      = ⟨Except.ok (-1), [Event.navigate "https://ok.example" true, Event.quit]⟩ :=
  C7_prefill_cancel ⟨⟨[("L", "v")], ["R"], ["K"]⟩, none⟩
    { envAllOk with preFillInput := "q" } "https://ok.example" true true false
    (by decide) (by rfl) (by rfl) (by rfl)

/-- C5: when a run reaches the fill loop (valid URL, navigation succeeded, no
pre-fill cancellation, no aborting clear failure) and some text field's
attempt fails, the failure is absorbed: every text, radio and checkbox entry
of the mapping is still attempted, in mapping order, and when submission is
requested and not cancelled at the review checkpoint a submit attempt is
still made. -/
theorem C5_per_field_failures_absorbed (g : GForm) (env : Env)
    (url : Option String) (submit interactive review clear : Bool) (u : String)
    (hres : resolveUrl g url = some u) (hne : u ≠ "")
    (hurl : matchesUrlRegex u = true) (hnav : env.navigateOk = true)
    (hpc : (interactive && (env.preFillInput == "q")) = false)
    (hcl : (clear && !env.clearOk) = false)
    (hfail : ∃ p ∈ g.mappings.text, env.textOk p.1 = false) :
    ((g.fill env url submit interactive review clear).trace.filter
        Event.isTextAttempt
      = g.mappings.text.map (fun p => Event.attemptText p.1 p.2 (env.textOk p.1)))
  ∧ ((g.fill env url submit interactive review clear).trace.filter
        Event.isRadioAttempt
      = g.mappings.radio.map (fun l => Event.attemptRadio l (env.radioOk l)))
  ∧ ((g.fill env url submit interactive review clear).trace.filter
        Event.isCheckboxAttempt
      = g.mappings.checkbox.map (fun l => Event.attemptCheckbox l (env.checkboxOk l)))
  ∧ (submit = true →
      (review && interactive && (env.reviewInput == "q")) = false →
      Event.attemptSubmit env.submitOk
        ∈ (g.fill env url submit interactive review clear).trace) := by
  unfold GForm.fill
  rw [hres]
  simp only [if_neg hne, hurl, Bool.not_true, Bool.false_eq_true, if_false,
    hnav, hpc, hcl]
  refine ⟨?_, ?_, ?_, ?_⟩
  · split <;>
    · split <;>
        simp [List.filter_append, filter_text_of_textAttemptEvents,
          filter_text_of_radioAttemptEvents, filter_text_of_checkboxAttemptEvents,
          Event.isTextAttempt]
  · split <;>
    · split <;>
        simp [List.filter_append, filter_radio_of_textAttemptEvents,
          filter_radio_of_radioAttemptEvents, filter_radio_of_checkboxAttemptEvents,
          Event.isRadioAttempt]
  · split <;>
    · split <;>
        simp [List.filter_append, filter_checkbox_of_textAttemptEvents,
          filter_checkbox_of_radioAttemptEvents,
          filter_checkbox_of_checkboxAttemptEvents, Event.isCheckboxAttempt]
  · intro hsub hrev
    subst hsub
    rw [if_pos (by simp [hrev])]
    split
    · rename_i hs
      simp [hs]
    · rename_i hs
      rw [Bool.not_eq_true] at hs
      simp [hs]

/-- Witness for C5: with the first text locator failing, both text fields,
the radio and checkbox entries are still attempted and a submit attempt is
made. -/
theorem C5_witness :
    (∃ p ∈ ([("L1", "v1"), ("L2", "v2")] : List (String × String)),
      ({ envAllOk with textOk := fun l => !(l == "L1") } : Env).textOk p.1 = false)
  ∧ ((⟨⟨[("L1", "v1"), ("L2", "v2")], ["R1"], ["K1"]⟩, none⟩ : GForm).fill
        { envAllOk with textOk := fun l => !(l == "L1") }
        (some "https://ok.example") true false false false).trace.filter
        Event.isTextAttempt
      = ([("L1", "v1"), ("L2", "v2")] : List (String × String)).map
          (fun p => Event.attemptText p.1 p.2
            (({ envAllOk with textOk := fun l => !(l == "L1") } : Env).textOk p.1))
  ∧ ((⟨⟨[("L1", "v1"), ("L2", "v2")], ["R1"], ["K1"]⟩, none⟩ : GForm).fill
        { envAllOk with textOk := fun l => !(l == "L1") }
        (some "https://ok.example") true false false false).trace.filter
        Event.isRadioAttempt
      = (["R1"] : List String).map (fun l => Event.attemptRadio l
          (({ envAllOk with textOk := fun l => !(l == "L1") } : Env).radioOk l))
  ∧ ((⟨⟨[("L1", "v1"), ("L2", "v2")], ["R1"], ["K1"]⟩, none⟩ : GForm).fill
        { envAllOk with textOk := fun l => !(l == "L1") }
        (some "https://ok.example") true false false false).trace.filter
        Event.isCheckboxAttempt
      = (["K1"] : List String).map (fun l => Event.attemptCheckbox l
          (({ envAllOk with textOk := fun l => !(l == "L1") } : Env).checkboxOk l))
  ∧ (true = true → (false && false &&
        (({ envAllOk with textOk := fun l => !(l == "L1") } : Env).reviewInput == "q"))
          = false →
      Event.attemptSubmit
          ({ envAllOk with textOk := fun l => !(l == "L1") } : Env).submitOk
        ∈ ((⟨⟨[("L1", "v1"), ("L2", "v2")], ["R1"], ["K1"]⟩, none⟩ : GForm).fill
            { envAllOk with textOk := fun l => !(l == "L1") }
            (some "https://ok.example") true false false false).trace) :=
  ⟨by decide,
    C5_per_field_failures_absorbed
      ⟨⟨[("L1", "v1"), ("L2", "v2")], ["R1"], ["K1"]⟩, none⟩
      { envAllOk with textOk := fun l => !(l == "L1") }
      (some "https://ok.example") true false false false "https://ok.example"
      (by rfl) (by decide) (by rfl) (by rfl) (by rfl) (by rfl) (by decide)⟩

end FormBot
